import Mathlib

/-!
Shallow embedding of the egui-d3d9 render backend (Rust) for specification
checking.  The embedding follows the source files:

  * src/egui-d3d9/src/inputman.rs  — input translation (InputManager)
  * src/egui-d3d9/src/texman.rs    — texture cache (TextureManager)
  * src/egui-d3d9/src/mesh.rs      — mesh conversion and buffers
  * src/egui-d3d9/src/backup.rs    — StateBackup guard
  * src/egui-d3d9/src/state.rs     — DxState guard
  * src/egui-d3d9/src/app.rs       — per-frame driver (EguiDx9::present)

Modelling conventions: machine words are Nat bit patterns with explicit
masking; f32 values that no claim inspects numerically are represented
exactly where possible (the zoom factors 1.5 and 0.5 are exact in f32 and
are modelled as rationals) and otherwise by the integer data that determines
them (the raw i16 wheel delta, whose sign agrees with the sign of the
scaled f32 value since scaling by 10/120 preserves sign); fallible
operations (the expect! macro, unreachable!) return Option/Except;
the external Windows environment (async key state, clipboard, client
rect, system time) is passed in explicitly.
-/

namespace EguiD3D9

/-! ### Windows constants (windows crate values used by inputman.rs) -/

def WM_MOUSEMOVE : Nat := 0x200
def WM_LBUTTONDOWN : Nat := 0x201
def WM_LBUTTONUP : Nat := 0x202
def WM_LBUTTONDBLCLK : Nat := 0x203
def WM_RBUTTONDOWN : Nat := 0x204
def WM_RBUTTONUP : Nat := 0x205
def WM_RBUTTONDBLCLK : Nat := 0x206
def WM_MBUTTONDOWN : Nat := 0x207
def WM_MBUTTONUP : Nat := 0x208
def WM_MBUTTONDBLCLK : Nat := 0x209
def WM_MOUSEWHEEL : Nat := 0x20A
def WM_XBUTTONDOWN : Nat := 0x20B
def WM_XBUTTONUP : Nat := 0x20C
def WM_XBUTTONDBLCLK : Nat := 0x20D
def WM_MOUSEHWHEEL : Nat := 0x20E
def WM_KEYDOWN : Nat := 0x100
def WM_KEYUP : Nat := 0x101
def WM_CHAR : Nat := 0x102
def WM_SYSKEYDOWN : Nat := 0x104
def WM_SYSKEYUP : Nat := 0x105
def MK_CONTROL : Nat := 0x8
def MK_SHIFT : Nat := 0x4
def WHEEL_DELTA : Nat := 120
def KF_REPEAT : Nat := 0x4000
def XBUTTON1 : Nat := 1
def XBUTTON2 : Nat := 2

/-! ### egui-side data types used by inputman.rs -/

/-- egui::Modifiers. -/
structure Modifiers where
  alt : Bool
  ctrl : Bool
  shift : Bool
  mac_cmd : Bool
  command : Bool
deriving DecidableEq, Repr

/-- Modifiers::default(): everything false. -/
def Modifiers.default : Modifiers :=
  { alt := false, ctrl := false, shift := false, mac_cmd := false, command := false }

inductive PointerButton
  | primary
  | secondary
  | middle
  | extra1
  | extra2
deriving DecidableEq, Repr

inductive MouseWheelUnit
  | point
  | line
  | page
deriving DecidableEq, Repr

/-- egui::Event, restricted to the variants inputman.rs produces.
Screen positions are pairs of i16 values (exact: `get_pos` reinterprets the
two 16-bit halves of lparam as i16 and converts to f32, which is exact for
all i16 values).  `text` carries unicode scalar values.  The mouse-wheel
delta is carried as the raw i16 wheel amount together with the axis; the
f32 scaling by 10/120 that the source applies is strictly monotone and no
claim inspects the scaled value.  The zoom factor is `3/2` or `1/2`,
which are the exact values of the f32 literals `1.5` and `0.5`. -/
inductive Event
  | pointerMoved (pos : Int × Int)
  | pointerButton (pos : Int × Int) (button : PointerButton)
      (pressed : Bool) (modifiers : Modifiers)
  | text (s : List Nat)
  | mouseWheel (unit : MouseWheelUnit) (deltaRawX deltaRawY : Int)
      (modifiers : Modifiers)
  | zoom (factor : ℚ)
  | copyEv
  | cutEv
  | keyEv (pressed : Bool) (modifiers : Modifiers) (key : Nat)
      (key_repeat : Bool)
deriving DecidableEq, Repr

/-- inputman.rs InputResult. -/
inductive InputResult
  | unknown
  | mouseMove
  | mouseLeft
  | mouseRight
  | mouseMiddle
  | character
  | scroll
  | zoom
  | keyTag
deriving DecidableEq, Repr

def InputResult.is_unknown : InputResult → Bool
  | .unknown => true
  | _ => false

def InputResult.is_valid (r : InputResult) : Bool := !r.is_unknown

/-- inputman.rs InputManager state.  The hwnd field is only used to query
the client rect, which the model passes in explicitly at collection time. -/
structure InputManager where
  events : List Event
  modifiers : Option Modifiers
deriving DecidableEq, Repr

/-- InputManager::new. -/
def InputManager.new : InputManager := { events := [], modifiers := none }

/-- The ambient Windows environment read by inputman.rs:
GetAsyncKeyState(VK_CONTROL/VK_LSHIFT) and the clipboard contents. -/
structure WinEnv where
  asyncCtrl : Bool
  asyncShift : Bool
  clipboard : Option (List Nat)
deriving DecidableEq, Repr

/-- Reinterpret the low 16 bits of a word as a signed 16-bit integer. -/
def toI16 (n : Nat) : Int :=
  let m := n % 65536
  if m < 32768 then (m : Int) else (m : Int) - 65536

/-- inputman.rs get_pos: the two 16-bit halves of lparam as i16. -/
def get_pos (lparam : Nat) : Int × Int :=
  (toI16 (lparam % 65536), toI16 ((lparam >>> 16) % 65536))

/-- inputman.rs get_mouse_modifiers. -/
def get_mouse_modifiers (wparam : Nat) : Modifiers :=
  { alt := false
    ctrl := wparam &&& MK_CONTROL ≠ 0
    shift := wparam &&& MK_SHIFT ≠ 0
    mac_cmd := false
    command := wparam &&& MK_CONTROL ≠ 0 }

/-- inputman.rs get_key_modifiers: reads the async key state. -/
def get_key_modifiers (env : WinEnv) (msg : Nat) : Modifiers :=
  { alt := msg = WM_SYSKEYDOWN
    mac_cmd := false
    command := env.asyncCtrl
    shift := env.asyncShift
    ctrl := env.asyncCtrl }

/-- The virtual-key codes that inputman.rs get_key maps to Some(Key).
Keys are represented by their VK code (no claim inspects the egui Key
constructor, only whether the code is mapped and whether it is V/C/X). -/
def knownVks : List Nat :=
  [0x08, 0x09, 0x0D, 0x1B, 0x20, 0x21, 0x22, 0x23, 0x24, 0x25, 0x26, 0x27,
   0x28, 0x2D, 0x2E, 0x30, 0x31, 0x32, 0x33, 0x34, 0x35, 0x36, 0x37, 0x38,
   0x39, 0x41, 0x42, 0x43, 0x44, 0x45, 0x46, 0x47, 0x48, 0x49, 0x4A, 0x4B,
   0x4C, 0x4D, 0x4E, 0x4F, 0x50, 0x51, 0x52, 0x53, 0x54, 0x55, 0x56, 0x57,
   0x58, 0x59, 0x5A, 0x70, 0x71, 0x72, 0x73, 0x74, 0x75, 0x76, 0x77, 0x78,
   0x79, 0x7A, 0x7B, 0x7C, 0x7D, 0x7E, 0x7F, 0x80, 0x81, 0x82, 0x83, 0x84,
   0x85, 0x86, 0x87, 0xBA, 0xBB, 0xBC, 0xBD, 0xBE, 0xBF, 0xC0, 0xDB, 0xDC,
   0xDD, 0xDE]

/-- inputman.rs get_key, with Key represented by the VK code. -/
def get_key (wparam : Nat) : Option Nat :=
  if wparam ∈ knownVks then some wparam else none

/-- Rust char::from_u32: valid unicode scalar value. -/
def charFromU32Valid (n : Nat) : Bool :=
  decide (n < 0xD800 ∨ (0xDFFF < n ∧ n < 0x110000))

/-- Rust char::is_control (Unicode Cc). -/
def charIsControl (n : Nat) : Bool :=
  decide (n < 0x20 ∨ (0x7F ≤ n ∧ n ≤ 0x9F))

/-- InputManager::alter_modifiers: only overwrites an already-present
snapshot; a None snapshot stays None. -/
def InputManager.alter_modifiers (im : InputManager) (new : Modifiers) :
    InputManager :=
  match im.modifiers with
  | some _ => { im with modifiers := some new }
  | none => im

/-- Push one event (Vec::push appends at the back). -/
def InputManager.push (im : InputManager) (e : Event) : InputManager :=
  { im with events := im.events ++ [e] }

/-- The raw i16 wheel amount from the high word of wparam.  The source
computes `(wparam >> 16) as i16 as f32 * 10. / WHEEL_DELTA as f32`; the
scaling is sign-preserving, so `delta > 0.` in the source holds iff this
integer is positive. -/
def wheelRaw (wparam : Nat) : Int := toI16 (wparam >>> 16)

/-- The xbutton selector of WM_XBUTTON*: Extra1/Extra2 from the high word
of wparam; any other pattern hits `unreachable!` (modelled as none). -/
def xbuttonOf (wparam : Nat) : Option PointerButton :=
  if (wparam >>> 16) &&& XBUTTON1 ≠ 0 then some .extra1
  else if (wparam >>> 16) &&& XBUTTON2 ≠ 0 then some .extra2
  else none

/-- InputManager::process.  Returns none exactly when the source panics
(the `unreachable!` in the WM_XBUTTON arms). -/
def InputManager.process (env : WinEnv) (im : InputManager) (umsg : Nat)
    (wparam : Nat) (lparam : Nat) : Option (InputManager × InputResult) :=
  if umsg = WM_MOUSEMOVE then
    let im := im.alter_modifiers (get_mouse_modifiers wparam)
    some (im.push (.pointerMoved (get_pos lparam)), .mouseMove)
  else if umsg = WM_LBUTTONDOWN ∨ umsg = WM_LBUTTONDBLCLK then
    let modifiers := get_mouse_modifiers wparam
    let im := im.alter_modifiers modifiers
    some (im.push (.pointerButton (get_pos lparam) .primary true modifiers),
      .mouseLeft)
  else if umsg = WM_LBUTTONUP then
    let modifiers := get_mouse_modifiers wparam
    let im := im.alter_modifiers modifiers
    some (im.push (.pointerButton (get_pos lparam) .primary false modifiers),
      .mouseLeft)
  else if umsg = WM_RBUTTONDOWN ∨ umsg = WM_RBUTTONDBLCLK then
    let modifiers := get_mouse_modifiers wparam
    let im := im.alter_modifiers modifiers
    some (im.push (.pointerButton (get_pos lparam) .secondary true modifiers),
      .mouseRight)
  else if umsg = WM_RBUTTONUP then
    let modifiers := get_mouse_modifiers wparam
    let im := im.alter_modifiers modifiers
    some (im.push (.pointerButton (get_pos lparam) .secondary false modifiers),
      .mouseRight)
  else if umsg = WM_MBUTTONDOWN ∨ umsg = WM_MBUTTONDBLCLK then
    let modifiers := get_mouse_modifiers wparam
    let im := im.alter_modifiers modifiers
    some (im.push (.pointerButton (get_pos lparam) .middle true modifiers),
      .mouseMiddle)
  else if umsg = WM_MBUTTONUP then
    let modifiers := get_mouse_modifiers wparam
    let im := im.alter_modifiers modifiers
    some (im.push (.pointerButton (get_pos lparam) .middle false modifiers),
      .mouseMiddle)
  else if umsg = WM_XBUTTONDOWN ∨ umsg = WM_XBUTTONDBLCLK then
    let modifiers := get_mouse_modifiers wparam
    let im := im.alter_modifiers modifiers
    match xbuttonOf wparam with
    | some button =>
        some (im.push (.pointerButton (get_pos lparam) button true modifiers),
          .mouseMiddle)
    | none => none
  else if umsg = WM_XBUTTONUP then
    let modifiers := get_mouse_modifiers wparam
    let im := im.alter_modifiers modifiers
    match xbuttonOf wparam with
    | some button =>
        some (im.push (.pointerButton (get_pos lparam) button false modifiers),
          .mouseMiddle)
    | none => none
  else if umsg = WM_CHAR then
    if charFromU32Valid wparam ∧ ¬ charIsControl wparam then
      some (im.push (.text [wparam]), .character)
    else
      some (im, .character)
  else if umsg = WM_MOUSEWHEEL then
    let im := im.alter_modifiers (get_mouse_modifiers wparam)
    if wparam &&& MK_CONTROL ≠ 0 then
      some (im.push (.zoom (if 0 < wheelRaw wparam then 3/2 else 1/2)), .zoom)
    else
      some (im.push (.mouseWheel .point 0 (wheelRaw wparam)
        (get_mouse_modifiers wparam)), .scroll)
  else if umsg = WM_MOUSEHWHEEL then
    let im := im.alter_modifiers (get_mouse_modifiers wparam)
    if wparam &&& MK_CONTROL ≠ 0 then
      some (im.push (.zoom (if 0 < wheelRaw wparam then 3/2 else 1/2)), .zoom)
    else
      some (im.push (.mouseWheel .point (wheelRaw wparam) 0
        (get_mouse_modifiers wparam)), .scroll)
  else if umsg = WM_KEYDOWN ∨ umsg = WM_SYSKEYDOWN then
    let modifiers := get_key_modifiers env umsg
    let im := { im with modifiers := some modifiers }
    match get_key wparam with
    | some key =>
        let im :=
          if key = 0x56 ∧ modifiers.ctrl then
            match env.clipboard with
            | some clip => im.push (.text clip)
            | none => im
          else im
        let im := if key = 0x43 ∧ modifiers.ctrl then im.push .copyEv else im
        let im := if key = 0x58 ∧ modifiers.ctrl then im.push .cutEv else im
        some (im.push (.keyEv true modifiers key (0 < lparam &&& KF_REPEAT)),
          .keyTag)
    | none => some (im, .keyTag)
  else if umsg = WM_KEYUP ∨ umsg = WM_SYSKEYUP then
    let modifiers := get_key_modifiers env umsg
    let im := { im with modifiers := some modifiers }
    match get_key wparam with
    | some key =>
        some (im.push (.keyEv false modifiers key false), .keyTag)
    | none => some (im, .keyTag)
  else
    some (im, .unknown)

/-- egui::RawInput, restricted to what collect_input fills in.  The screen
rect and the timestamp come from the host environment and are passed in. -/
structure RawInput where
  modifiers : Modifiers
  events : List Event
  screen_rect : (Int × Int) × (Int × Int)
  time : ℚ
  predicted_dt : ℚ
  focused : Bool
deriving DecidableEq, Repr

/-- InputManager::collect_input: drains the queue into one batch.  The
screen rect and system time are external reads, passed in. -/
def InputManager.collect_input (im : InputManager)
    (screen : (Int × Int) × (Int × Int)) (time : ℚ) :
    RawInput × InputManager :=
  ({ modifiers := im.modifiers.getD Modifiers.default
     events := im.events
     screen_rect := screen
     time := time
     predicted_dt := 1/60
     focused := true },
   { im with events := [] })

/-- The recognized message set: every umsg with a non-wildcard arm in
InputManager::process. -/
def recognizedMsgs : List Nat :=
  [WM_MOUSEMOVE, WM_LBUTTONDOWN, WM_LBUTTONDBLCLK, WM_LBUTTONUP,
   WM_RBUTTONDOWN, WM_RBUTTONDBLCLK, WM_RBUTTONUP, WM_MBUTTONDOWN,
   WM_MBUTTONDBLCLK, WM_MBUTTONUP, WM_XBUTTONDOWN, WM_XBUTTONDBLCLK,
   WM_XBUTTONUP, WM_CHAR, WM_MOUSEWHEEL, WM_MOUSEHWHEEL, WM_KEYDOWN,
   WM_SYSKEYDOWN, WM_KEYUP, WM_SYSKEYUP]

/-! ### Texture cache (texman.rs) -/

/-- egui::TextureId, opaque and toolkit-supplied. -/
abbrev TextureId := Nat

/-- texman.rs TextureColor (BGRA byte layout; channel values). -/
structure TextureColor where
  b : Nat
  g : Nat
  r : Nat
  a : Nat
deriving DecidableEq, Repr

/-- An egui image after `pixels_from_imagedata` normalization: both source
representations (font coverage mask, full RGBA) are normalized to one
row-major BGRA pixel list of length width*height before upload, so the
model starts from the normalized form. -/
structure ImageData where
  width : Nat
  height : Nat
  pixels : List TextureColor
deriving DecidableEq, Repr

def ImageData.size (img : ImageData) : Nat × Nat := (img.width, img.height)

/-- egui::epaint::ImageDelta: pos = none means a whole-image delta. -/
structure ImageDelta where
  image : ImageData
  pos : Option (Nat × Nat)
deriving DecidableEq, Repr

/-- ImageDelta::is_whole. -/
def ImageDelta.is_whole (d : ImageDelta) : Bool := d.pos.isNone

/-- texman.rs ManagedTexture: nullable native handle, retained CPU pixel
copy, dimensions. -/
structure ManagedTexture where
  handle : Option Nat
  pixels : List TextureColor
  size : Nat × Nat
deriving DecidableEq, Repr

/-- texman.rs TextureManager: the HashMap is modelled as an association
list keyed by TextureId. -/
structure TextureManager where
  textures : List (TextureId × ManagedTexture)
deriving DecidableEq, Repr

def TextureManager.new : TextureManager := { textures := [] }

def lookupTex (tm : TextureManager) (tid : TextureId) :
    Option ManagedTexture :=
  (tm.textures.find? (fun p => p.1 = tid)).map Prod.snd

def insertTex (tm : TextureManager) (tid : TextureId) (t : ManagedTexture) :
    TextureManager :=
  { textures := (tm.textures.filter (fun p => p.1 ≠ tid)) ++ [(tid, t)] }

def removeTex (tm : TextureManager) (tid : TextureId) : TextureManager :=
  { textures := tm.textures.filter (fun p => p.1 ≠ tid) }

/-- A GPU-side texture: the content the device holds for a handle, plus
the dirty mark set by AddDirtyRect. -/
structure GpuTex where
  content : List TextureColor
  size : Nat × Nat
  dirty : Bool
deriving DecidableEq, Repr

/-- The D3D9 device as the texture code sees it: a monotone handle
allocator and the per-handle GPU texture contents. -/
structure D3Dev where
  nextHandle : Nat
  gpu : List (Nat × GpuTex)
deriving DecidableEq, Repr

/-- Device-level texture events, recorded in call order. -/
inductive TexEvent
  | createdStaging (size : Nat × Nat)
  | createdTexture (h : Nat) (size : Nat × Nat)
  | releasedHandle (h : Nat)
  | addDirtyRect (h : Nat) (size : Nat × Nat)
  | updateTexture (dst : Nat)
  | updateSurface (dst : Nat) (pos : Nat × Nat) (size : Nat × Nat)
deriving DecidableEq, Repr

/-- Combined texture-subsystem state threaded through the texman.rs
operations. -/
structure TexSys where
  tm : TextureManager
  dev : D3Dev
  events : List TexEvent
deriving DecidableEq, Repr

def lookupGpu (dev : D3Dev) (h : Nat) : Option GpuTex :=
  (dev.gpu.find? (fun p => p.1 = h)).map Prod.snd

def setGpu (dev : D3Dev) (h : Nat) (t : GpuTex) : D3Dev :=
  { dev with gpu := (dev.gpu.filter (fun p => p.1 ≠ h)) ++ [(h, t)] }

def dropGpu (dev : D3Dev) (h : Nat) : D3Dev :=
  { dev with gpu := dev.gpu.filter (fun p => p.1 ≠ h) }

/-- Overwrite the (x,y)+(w,h) sub-rectangle of a row-major W×H pixel list
with a row-major w×h source (the effect of dev.UpdateSurface from the
staging surface).  Pixels outside the rectangle are unchanged. -/
def writeRect (dst : List TextureColor) (W H : Nat) (src : List TextureColor)
    (w h : Nat) (x y : Nat) : List TextureColor :=
  (List.range (W * H)).map fun k =>
    let i := k % W
    let j := k / W
    if x ≤ i ∧ i < x + w ∧ y ≤ j ∧ j < y + h then
      src.getD ((j - y) * w + (i - x)) ⟨0, 0, 0, 0⟩
    else
      dst.getD k ⟨0, 0, 0, 0⟩

/-- texman.rs new_texture_from_buffer: creates a SYSTEMMEM staging texture
holding the buffer, creates a fresh DEFAULT-pool texture, and copies the
staging content into it via dev.UpdateTexture.  Returns the fresh handle. -/
def new_texture_from_buffer (sys : TexSys) (buf : List TextureColor)
    (size : Nat × Nat) : Nat × TexSys :=
  let h := sys.dev.nextHandle
  let dev := setGpu { sys.dev with nextHandle := h + 1 } h
    { content := buf, size := size, dirty := false }
  (h, { sys with
        dev := dev
        events := sys.events ++
          [.createdStaging size, .createdTexture h size, .updateTexture h] })

/-- TextureManager::free: removes the cache entry; dropping the entry
releases its native handle if present. -/
def TexSys.free (sys : TexSys) (tid : TextureId) : TexSys :=
  match lookupTex sys.tm tid with
  | none => sys
  | some e =>
      let sys := { sys with tm := removeTex sys.tm tid }
      match e.handle with
      | some h =>
          { sys with dev := dropGpu sys.dev h
                     events := sys.events ++ [.releasedHandle h] }
      | none => sys

/-- TextureManager::create_new_texture. -/
def TexSys.create_new_texture (sys : TexSys) (tid : TextureId)
    (img : ImageData) : TexSys :=
  let (h, sys) := new_texture_from_buffer sys img.pixels img.size
  let t : ManagedTexture :=
    { handle := some h, pixels := img.pixels, size := img.size }
  { sys with tm := insertTex sys.tm tid t }

/-- TextureManager::update_texture_area: uploads the sub-rectangle to the
GPU surface via a staging texture and dev.UpdateSurface.  Note that the
retained CPU pixel buffer of the entry is NOT updated by the source.
Errors model the expect! panics. -/
def TexSys.update_texture_area (sys : TexSys) (tid : TextureId)
    (img : ImageData) (pos : Nat × Nat) : Except String TexSys :=
  match lookupTex sys.tm tid with
  | none => .error "unable to get texture to delta patch"
  | some e =>
      let sys := { sys with events := sys.events ++ [TexEvent.createdStaging img.size] }
      match e.handle with
      | none => .error "unable to get texture handle"
      | some h =>
          match lookupGpu sys.dev h with
          | none => .error "unable to get tex surface"
          | some g =>
              let g2 : GpuTex :=
                { g with content := writeRect g.content g.size.1 g.size.2
                           img.pixels img.width img.height pos.1 pos.2 }
              let ev := sys.events ++ [.updateSurface h pos img.size]
              .ok { sys with dev := setGpu sys.dev h g2, events := ev }

/-- TextureManager::update_texture_whole: dimension change frees the entry
and recreates it under the same id; unchanged dimensions update in place
(AddDirtyRect then dev.UpdateTexture from a staging texture) and refresh
the retained CPU pixels, leaving the handle untouched. -/
def TexSys.update_texture_whole (sys : TexSys) (tid : TextureId)
    (img : ImageData) : Except String TexSys :=
  match lookupTex sys.tm tid with
  | none => .error "unable to get texture"
  | some e =>
      if img.size ≠ e.size then
        let sys := sys.free tid
        let (h, sys) := new_texture_from_buffer sys img.pixels img.size
        let t : ManagedTexture :=
          { handle := some h, pixels := img.pixels, size := img.size }
        .ok { sys with tm := insertTex sys.tm tid t }
      else
        let sys := { sys with events := sys.events ++ [TexEvent.createdStaging img.size] }
        match e.handle with
        | none => .error "unable to get texture handle"
        | some h =>
            match lookupGpu sys.dev h with
            | none => .error "unable to dirty texture"
            | some g =>
                let g2 : GpuTex :=
                  { g with content := img.pixels, dirty := true }
                let ev := sys.events ++
                  [.addDirtyRect h img.size, .updateTexture h]
                let e2 : ManagedTexture := { e with pixels := img.pixels }
                .ok { sys with dev := setGpu sys.dev h g2, events := ev,
                               tm := insertTex sys.tm tid e2 }

/-- TextureManager::process_set_deltas: per-delta dispatch between create,
whole update and area update. -/
def TexSys.process_set_deltas (sys : TexSys)
    (set : List (TextureId × ImageDelta)) : Except String TexSys :=
  match set with
  | [] => .ok sys
  | (tid, d) :: rest =>
      match (if (lookupTex sys.tm tid).isSome then
               match d.pos with
               | none => sys.update_texture_whole tid d.image
               | some p => sys.update_texture_area tid d.image p
             else
               .ok (sys.create_new_texture tid d.image)) with
      | .error e => .error e
      | .ok sys => sys.process_set_deltas rest

/-- TextureManager::process_free_deltas. -/
def TexSys.process_free_deltas (sys : TexSys) (free : List TextureId) :
    TexSys :=
  free.foldl (fun s tid => s.free tid) sys

/-- TextureManager::get_by_id: fatal (error) when the id is absent or the
entry's handle is absent. -/
def TextureManager.get_by_id (tm : TextureManager) (tid : TextureId) :
    Except String Nat :=
  match lookupTex tm tid with
  | none => .error "unable to retrieve texture"
  | some e =>
      match e.handle with
      | some h => .ok h
      | none => .error "unable to retrieve texture handle"

/-- TextureManager::deallocate_textures: drop every native handle, keep
pixels and sizes. -/
def TexSys.deallocate_textures (sys : TexSys) : TexSys :=
  let released := sys.tm.textures.filterMap (fun p => p.2.handle)
  let tm2 : TextureManager :=
    { textures := sys.tm.textures.map
        (fun p => (p.1, { p.2 with handle := none })) }
  let dev2 : D3Dev :=
    { sys.dev with gpu := sys.dev.gpu.filter (fun g => g.1 ∉ released) }
  { tm := tm2, dev := dev2,
    events := sys.events ++ released.map .releasedHandle }

/-- TextureManager::reallocate_textures: re-upload every retained entry to
a freshly created GPU texture. -/
def TexSys.reallocate_textures (sys : TexSys) : TexSys :=
  sys.tm.textures.foldl
    (fun s p =>
      let (h, s) := new_texture_from_buffer s p.2.pixels p.2.size
      let t : ManagedTexture := { p.2 with handle := some h }
      { s with tm := insertTex s.tm p.1 t })
    sys

/-- A fresh texture subsystem over a device whose allocator starts at a
given handle value. -/
def TexSys.init (h0 : Nat) : TexSys :=
  { tm := TextureManager.new, dev := { nextHandle := h0, gpu := [] },
    events := [] }

/-! ### Mesh conversion (mesh.rs) -/

/-- egui::Color32 (RGBA channel values). -/
structure Color32 where
  r : Nat
  g : Nat
  b : Nat
  a : Nat
deriving DecidableEq, Repr

/-- mesh.rs VertexColor (BGRA byte layout). -/
structure VertexColor where
  b : Nat
  g : Nat
  r : Nat
  a : Nat
deriving DecidableEq, Repr

/-- From<Color32> for VertexColor. -/
def VertexColor.from_color32 (c : Color32) : VertexColor :=
  { r := c.r, g := c.g, b := c.b, a := c.a }

/-- A 2-component vector.  egui coordinates are f32; no claim inspects
their numeric values, so they are carried as exact integers. -/
structure EVec2 where
  x : Int
  y : Int
deriving DecidableEq, Repr

/-- egui::epaint::Vertex. -/
structure EguiVertex where
  pos : EVec2
  uv : EVec2
  color : Color32
deriving DecidableEq, Repr

/-- egui::Mesh: vertices, 32-bit indices, texture id. -/
structure EguiMesh where
  indices : List Nat
  vertices : List EguiVertex
  texture_id : TextureId
deriving DecidableEq, Repr

/-- A windows RECT as produced from an egui Rect by the `as` casts. -/
structure ERect where
  left : Int
  top : Int
  right : Int
  bottom : Int
deriving DecidableEq, Repr

/-- mesh.rs GpuVertex: position with implicit z = 0, BGRA color, uv. -/
structure GpuVertex where
  pos : Int × Int × Int
  color : VertexColor
  uv : EVec2
deriving DecidableEq, Repr

/-- mesh.rs MeshDescriptor. -/
structure MeshDescriptor where
  vertices : Nat
  indices : Nat
  clip : ERect
  texture_id : TextureId
deriving DecidableEq, Repr

/-- MeshDescriptor::from_mesh: rejects a mesh whose index list is empty or
not a multiple of 3; otherwise converts the vertices and returns the
descriptor together with the converted vertex and index runs. -/
def MeshDescriptor.from_mesh (mesh : EguiMesh) (scissors : ERect) :
    Option (MeshDescriptor × List GpuVertex × List Nat) :=
  if mesh.indices.isEmpty || mesh.indices.length % 3 != 0 then
    none
  else
    let vertices : List GpuVertex := mesh.vertices.map fun v =>
      { pos := (v.pos.x, v.pos.y, 0)
        uv := v.uv
        color := VertexColor.from_color32 v.color }
    some ({ vertices := vertices.length
            indices := mesh.indices.length
            clip := scissors
            texture_id := mesh.texture_id },
          vertices, mesh.indices)

/-- The mesh type consumed by app.rs EguiDx9::present (its per-mesh-buffer
variant).  Its converter applies the same triangle-alignment guard as
mesh.rs MeshDescriptor::from_mesh, through which it is defined here. -/
structure GpuMesh where
  vertices : List GpuVertex
  indices : List Nat
  clip : ERect
  texture_id : TextureId
deriving DecidableEq, Repr

/-- GpuMesh::from_mesh, defined through MeshDescriptor::from_mesh. -/
def GpuMesh.from_mesh (mesh : EguiMesh) (scissors : ERect) :
    Option GpuMesh :=
  match MeshDescriptor.from_mesh mesh scissors with
  | none => none
  | some (d, vs, idxs) =>
      some { vertices := vs, indices := idxs, clip := d.clip,
             texture_id := d.texture_id }

/-! ### Device pipeline state and commands (app.rs, backup.rs, state.rs) -/

/-- D3DFVF_XYZ ||| D3DFVF_DIFFUSE ||| D3DFVF_TEX1. -/
def FVF_CUSTOMVERTEX : Nat := 0x002 ||| 0x040 ||| 0x100

inductive TransformKind
  | world
  | view
  | proj
deriving DecidableEq, Repr

/-- A transform matrix value.  The f32 entries are not inspected by any
claim; matrices are identified by how they are produced: the identity, the
orthographic screen-space projection for a given client size, or an
arbitrary matrix already installed by the host. -/
inductive MatVal
  | ident
  | projFor (w h : Nat)
  | host (tag : Nat)
deriving DecidableEq, Repr

/-- The render-state keys app.rs setup_state writes. -/
inductive RS
  | fillmode
  | shademode
  | zwriteenable
  | alphatestenable
  | cullmode
  | zenable
  | alphablendenable
  | blendop
  | srcblend
  | destblend
  | separatealphablendenable
  | srcblendalpha
  | destblendalpha
  | scissortestenable
  | fogenable
  | rangefogenable
  | specularenable
  | stencilenable
  | clippingRS
  | lightingRS
deriving DecidableEq, Repr

/-- Texture-stage-state keys. -/
inductive TSS
  | colorop
  | colorarg1
  | colorarg2
  | alphaop
  | alphaarg1
  | alphaarg2
deriving DecidableEq, Repr

/-- Sampler-state keys. -/
inductive SAMP
  | minfilter
  | mipfilter
  | magfilter
deriving DecidableEq, Repr

/-- D3D9 enum values used by the setup (their numeric API values). -/
def D3DFILL_SOLID : Nat := 3
def D3DSHADE_GOURAUD : Nat := 2
def D3DCULL_NONE : Nat := 1
def D3DBLENDOP_ADD : Nat := 1
def D3DBLEND_SRCALPHA : Nat := 5
def D3DBLEND_INVSRCALPHA : Nat := 6
def D3DBLEND_ONE : Nat := 2
def D3DTOP_MODULATE : Nat := 4
def D3DTOP_DISABLE : Nat := 1
def D3DTA_TEXTURE : Nat := 2
def D3DTA_DIFFUSE : Nat := 0
def D3DTEXF_LINEAR : Nat := 2

/-- Update an association list at a key. -/
def setAssoc {α β : Type} [DecidableEq α] (l : List (α × β)) (k : α)
    (v : β) : List (α × β) :=
  (l.filter (fun p => p.1 ≠ k)) ++ [(k, v)]

/-- The fixed-function pipeline state of the device that the backend
touches.  A D3DSBT_ALL state block captures and, on Apply, restores this
whole record (the state-block contract: an opaque capture of device
pipeline state usable for exact restore). -/
structure DeviceState where
  renderTarget : Nat
  viewport : Nat × Nat
  pixelShader : Option Nat
  vertexShader : Option Nat
  fvf : Nat
  world : MatVal
  view : MatVal
  proj : MatVal
  renderStates : List (RS × Nat)
  textureStages : List ((Nat × TSS) × Nat)
  samplers : List ((Nat × SAMP) × Nat)
  scissor : ERect
  texture0 : Option Nat
  streamSource : Option (List GpuVertex)
  indexBuffer : Option (List Nat)
deriving DecidableEq, Repr

/-- The device calls present() and the guards issue, in call order.
`createBuffers` is the per-mesh create_buffers vertex/index allocation and
upload; `drawIndexedPrimitive` leaves the pipeline state unchanged. -/
inductive DevCmd
  | setRenderTarget (idx surf : Nat)
  | setViewport (vp : Nat × Nat)
  | setPixelShader (s : Option Nat)
  | setVertexShader (s : Option Nat)
  | setFVF (v : Nat)
  | setTransform (k : TransformKind) (m : MatVal)
  | setRenderState (k : RS) (v : Nat)
  | setTextureStageState (stage : Nat) (k : TSS) (v : Nat)
  | setSamplerState (s : Nat) (k : SAMP) (v : Nat)
  | setScissorRect (r : ERect)
  | setTexture (stage : Nat) (tex : Nat)
  | setStreamSource (contents : List GpuVertex)
  | setIndices (contents : List Nat)
  | createBuffers (verts : List GpuVertex) (idxs : List Nat)
  | drawIndexedPrimitive (vtxCount primCount : Nat)
  | applyStateBlock (snap : DeviceState)
deriving DecidableEq, Repr

/-- The device-state effect of one command. -/
def execCmd (c : DevCmd) (s : DeviceState) : DeviceState :=
  match c with
  | .setRenderTarget _ surf => { s with renderTarget := surf }
  | .setViewport vp => { s with viewport := vp }
  | .setPixelShader ps => { s with pixelShader := ps }
  | .setVertexShader vs => { s with vertexShader := vs }
  | .setFVF v => { s with fvf := v }
  | .setTransform .world m => { s with world := m }
  | .setTransform .view m => { s with view := m }
  | .setTransform .proj m => { s with proj := m }
  | .setRenderState k v => { s with renderStates := setAssoc s.renderStates k v }
  | .setTextureStageState st k v =>
      { s with textureStages := setAssoc s.textureStages (st, k) v }
  | .setSamplerState sm k v =>
      { s with samplers := setAssoc s.samplers (sm, k) v }
  | .setScissorRect r => { s with scissor := r }
  | .setTexture _ tex => { s with texture0 := some tex }
  | .setStreamSource v => { s with streamSource := some v }
  | .setIndices v => { s with indexBuffer := some v }
  | .createBuffers _ _ => s
  | .drawIndexedPrimitive _ _ => s
  | .applyStateBlock snap => snap

def execList (cmds : List DevCmd) (s : DeviceState) : DeviceState :=
  cmds.foldl (fun s c => execCmd c s) s

/-! backup.rs StateBackup: CreateStateBlock(D3DSBT_ALL) + Capture on
construction captures the whole device state; Drop issues a single Apply
of the captured block. -/

/-- StateBackup::new: the captured block is the current device state. -/
def StateBackup.new (s : DeviceState) : DeviceState := s

/-- Drop for StateBackup: the single command its destructor issues. -/
def StateBackup.dropCmds (snap : DeviceState) : List DevCmd :=
  [.applyStateBlock snap]

/-! state.rs DxState: the guard variant that additionally captures the
three transform matrices separately. -/

/-- state.rs DxState fields (the captured part; the device handle is
implicit). -/
structure DxState where
  original_state : DeviceState
  original_world : MatVal
  original_view : MatVal
  original_proj : MatVal
deriving DecidableEq, Repr

/-- The capture phase of DxState::setup (state.rs lines 38-65): creates
and captures a D3DSBT_ALL block, then reads the three transforms. -/
def DxState.capture (s : DeviceState) : DxState :=
  { original_state := s
    original_world := s.world
    original_view := s.view
    original_proj := s.proj }

/-- Drop for DxState (state.rs lines 81-104): restores the three
transforms first, then applies the captured block. -/
def DxState.dropCmds (g : DxState) : List DevCmd :=
  [.setTransform .world g.original_world,
   .setTransform .view g.original_view,
   .setTransform .proj g.original_proj,
   .applyStateBlock g.original_state]

/-! ### The frame driver (app.rs EguiDx9::present) -/

/-- EguiDx9::setup_state: the exact command sequence of app.rs
setup_state, in source order.  `screen` is the client size read through
GetClientRect, `backbuffer` the surface from GetBackBuffer. -/
def setup_state_cmds (screen : Nat × Nat) (backbuffer : Nat) :
    List DevCmd :=
  [.setRenderTarget 0 backbuffer,
   .setViewport screen,
   .setPixelShader none,
   .setVertexShader none,
   .setFVF FVF_CUSTOMVERTEX,
   .setTransform .world .ident,
   .setTransform .view .ident,
   .setTransform .proj (.projFor screen.1 screen.2),
   .setRenderState .fillmode D3DFILL_SOLID,
   .setRenderState .shademode D3DSHADE_GOURAUD,
   .setRenderState .zwriteenable 0,
   .setRenderState .alphatestenable 0,
   .setRenderState .cullmode D3DCULL_NONE,
   .setRenderState .zenable 0,
   .setRenderState .alphablendenable 1,
   .setRenderState .blendop D3DBLENDOP_ADD,
   .setRenderState .srcblend D3DBLEND_SRCALPHA,
   .setRenderState .destblend D3DBLEND_INVSRCALPHA,
   .setRenderState .separatealphablendenable 1,
   .setRenderState .srcblendalpha D3DBLEND_ONE,
   .setRenderState .destblendalpha D3DBLEND_INVSRCALPHA,
   .setRenderState .scissortestenable 1,
   .setRenderState .fogenable 0,
   .setRenderState .rangefogenable 0,
   .setRenderState .specularenable 0,
   .setRenderState .stencilenable 0,
   .setRenderState .clippingRS 1,
   .setRenderState .lightingRS 0,
   .setTextureStageState 0 .colorop D3DTOP_MODULATE,
   .setTextureStageState 0 .colorarg1 D3DTA_TEXTURE,
   .setTextureStageState 0 .colorarg2 D3DTA_DIFFUSE,
   .setTextureStageState 0 .alphaop D3DTOP_MODULATE,
   .setTextureStageState 0 .alphaarg1 D3DTA_TEXTURE,
   .setTextureStageState 0 .alphaarg2 D3DTA_DIFFUSE,
   .setTextureStageState 1 .colorop D3DTOP_DISABLE,
   .setTextureStageState 1 .alphaop D3DTOP_DISABLE,
   .setSamplerState 0 .minfilter D3DTEXF_LINEAR,
   .setSamplerState 0 .mipfilter D3DTEXF_LINEAR,
   .setSamplerState 0 .magfilter D3DTEXF_LINEAR]

/-- The per-mesh body of the draw loop in present (app.rs lines 96-131):
create and fill the per-mesh buffers, set the scissor rect, bind the
mesh's texture (fatal if not resident), bind the buffers, and issue one
indexed-triangle-list draw sized to the mesh's runs. -/
def meshCmds (tm : TextureManager) (m : GpuMesh) :
    Except String (List DevCmd) :=
  match tm.get_by_id m.texture_id with
  | .error e => .error e
  | .ok h =>
      .ok [.createBuffers m.vertices m.indices,
           .setScissorRect m.clip,
           .setTexture 0 h,
           .setStreamSource m.vertices,
           .setIndices m.indices,
           .drawIndexedPrimitive m.vertices.length (m.indices.length / 3)]

/-- The whole draw loop over the converted meshes, in tessellation
order. -/
def drawAll (tm : TextureManager) (ms : List GpuMesh) :
    Except String (List DevCmd) :=
  match ms with
  | [] => .ok []
  | m :: rest =>
      match meshCmds tm m with
      | .error e => .error e
      | .ok c =>
          match drawAll tm rest with
          | .error e => .error e
          | .ok cs => .ok (c ++ cs)

/-- The toolkit's per-frame output, as present consumes it: texture set
and free deltas, clipboard text, the shape list (only its emptiness is
tested before tessellation), and the tessellated clipped meshes the
external ctx.tessellate call produces for those shapes (present assumes
every primitive is a mesh; paint callbacks panic and are outside this
model). -/
structure FrameOutput where
  set : List (TextureId × ImageDelta)
  free : List TextureId
  copied_text : List Nat
  shapes : List Nat
  prims : List (EguiMesh × ERect)
deriving DecidableEq, Repr

/-- TexturesDelta::is_empty. -/
def FrameOutput.deltaEmpty (out : FrameOutput) : Bool :=
  out.set.isEmpty && out.free.isEmpty

/-- The texture set-delta step of present: applied only when the deltas
are non-empty. -/
def stepSets (sys : TexSys) (out : FrameOutput) : Except String TexSys :=
  if out.deltaEmpty then .ok sys else sys.process_set_deltas out.set

/-- The texture free-delta step of present: applied only when the deltas
are non-empty. -/
def stepFrees (sys : TexSys) (out : FrameOutput) : TexSys :=
  if out.deltaEmpty then sys else sys.process_free_deltas out.free

/-- The result of one present() call: the device state on return, the
texture subsystem, and the trace of device commands issued by
setup/draw/guard (texture-upload traffic is in the TexSys event list). -/
structure PresentResult where
  dev : DeviceState
  texsys : TexSys
  cmds : List DevCmd
deriving DecidableEq, Repr

/-- EguiDx9::present (app.rs lines 56-136): capture the state guard, run
the toolkit (its output is the `out` argument), apply set deltas, push
clipboard text (external), early-return on empty shapes (applying free
deltas), otherwise install the drawing state, convert and filter the
tessellated meshes, run the draw loop, apply free deltas; the guard's
captured block is re-applied on every exit path when the guard drops. -/
def present (s0 : DeviceState) (sys : TexSys) (out : FrameOutput)
    (screen : Nat × Nat) (backbuffer : Nat) :
    Except String PresentResult :=
  let snap := StateBackup.new s0
  match stepSets sys out with
  | .error e => .error e
  | .ok sys =>
      if out.shapes.isEmpty then
        let sys := stepFrees sys out
        .ok { dev := execList (StateBackup.dropCmds snap) s0
              texsys := sys
              cmds := StateBackup.dropCmds snap }
      else
        let setup := setup_state_cmds screen backbuffer
        let s1 := execList setup s0
        let prims := out.prims.filterMap fun p => GpuMesh.from_mesh p.1 p.2
        match drawAll sys.tm prims with
        | .error e => .error e
        | .ok dcmds =>
            let s2 := execList dcmds s1
            let sys := stepFrees sys out
            .ok { dev := execList (StateBackup.dropCmds snap) s2
                  texsys := sys
                  cmds := setup ++ dcmds ++ StateBackup.dropCmds snap }

/-! ### Concrete instances used to exercise the model -/

/-- The mouse message set: every arm of process that handles a mouse
move, button, extra button or wheel message. -/
def mouseMsgs : List Nat :=
  [WM_MOUSEMOVE, WM_LBUTTONDOWN, WM_LBUTTONDBLCLK, WM_LBUTTONUP,
   WM_RBUTTONDOWN, WM_RBUTTONDBLCLK, WM_RBUTTONUP, WM_MBUTTONDOWN,
   WM_MBUTTONDBLCLK, WM_MBUTTONUP, WM_XBUTTONDOWN, WM_XBUTTONDBLCLK,
   WM_XBUTTONUP, WM_MOUSEWHEEL, WM_MOUSEHWHEEL]

/-- A 1×1 white image. -/
def imgWhite : ImageData :=
  { width := 1, height := 1, pixels := [⟨255, 255, 255, 255⟩] }

/-- A 1×1 black image. -/
def imgBlack : ImageData :=
  { width := 1, height := 1, pixels := [⟨0, 0, 0, 255⟩] }

/-- C2 failing input: create texture 7 from the white image, then apply a
partial-rectangle delta writing the black pixel at (0,0). -/
def c2deltas : List (TextureId × ImageDelta) :=
  [(7, { image := imgWhite, pos := none }),
   (7, { image := imgBlack, pos := some (0, 0) })]

/-- The texture subsystem after the C2 delta sequence. -/
def c2after : TexSys :=
  match (TexSys.init 0).process_set_deltas c2deltas with
  | .ok s => s
  | .error _ => TexSys.init 0

/-- The texture subsystem after release and recreate of GPU resources. -/
def c2recreated : TexSys := c2after.deallocate_textures.reallocate_textures

/-- C8: a texture subsystem in the between-release-and-recreate state:
id 5 is resident but its native handle has been dropped. -/
def c8sys : TexSys :=
  ((TexSys.init 0).create_new_texture 5
    { width := 1, height := 1, pixels := [⟨1, 2, 3, 4⟩] }).deallocate_textures

/-- An arbitrary pre-existing host device state with host-installed
transforms, shaders and states. -/
def hostState : DeviceState :=
  { renderTarget := 11
    viewport := (640, 480)
    pixelShader := some 3
    vertexShader := some 4
    fvf := 7
    world := .host 1
    view := .host 2
    proj := .host 3
    renderStates := [(.zenable, 1), (.lightingRS, 1)]
    textureStages := [((0, .colorop), 9)]
    samplers := [((0, .minfilter), 1)]
    scissor := ⟨5, 6, 7, 8⟩
    texture0 := some 42
    streamSource := none
    indexBuffer := none }

/-- A texture subsystem with texture id 1 resident (handle 0). -/
def w1sys : TexSys := (TexSys.init 0).create_new_texture 1 imgWhite

/-- A single valid triangle mesh over texture id 1. -/
def w1mesh : EguiMesh :=
  { indices := [0, 1, 2]
    vertices :=
      [{ pos := ⟨0, 0⟩, uv := ⟨0, 0⟩, color := ⟨255, 0, 0, 255⟩ },
       { pos := ⟨10, 0⟩, uv := ⟨1, 0⟩, color := ⟨0, 255, 0, 255⟩ },
       { pos := ⟨0, 10⟩, uv := ⟨0, 1⟩, color := ⟨0, 0, 255, 255⟩ }]
    texture_id := 1 }

/-- A frame output with one drawable mesh. -/
def w1out : FrameOutput :=
  { set := [], free := [], copied_text := [], shapes := [9]
    prims := [(w1mesh, ⟨0, 0, 10, 10⟩)] }

/-- A frame output with empty shapes but pending set and free deltas. -/
def w5out : FrameOutput :=
  { set := [(3, { image := imgBlack, pos := none })]
    free := [3]
    copied_text := []
    shapes := []
    prims := [] }

/-- The result of the concrete full present over the host state. -/
def c1res : PresentResult :=
  match present hostState w1sys w1out (640, 480) 99 with
  | .ok r => r
  | .error _ => { dev := hostState, texsys := w1sys, cmds := [] }

/-! ### Helper lemmas -/

lemma alter_modifiers_of_some (im : InputManager) (m new : Modifiers)
    (h : im.modifiers = some m) :
    (im.alter_modifiers new).modifiers = some new := by
  simp [InputManager.alter_modifiers, h]

lemma process_wheel_eq (env : WinEnv) (im : InputManager)
    (wparam lparam : Nat) :
    InputManager.process env im WM_MOUSEWHEEL wparam lparam =
      (if wparam &&& MK_CONTROL ≠ 0 then
        some ((im.alter_modifiers (get_mouse_modifiers wparam)).push
          (Event.zoom (if 0 < wheelRaw wparam then 3/2 else 1/2)),
          InputResult.zoom)
      else
        some ((im.alter_modifiers (get_mouse_modifiers wparam)).push
          (Event.mouseWheel .point 0 (wheelRaw wparam)
            (get_mouse_modifiers wparam)), InputResult.scroll)) := by
  simp [InputManager.process, WM_MOUSEMOVE, WM_LBUTTONDOWN, WM_LBUTTONUP,
    WM_LBUTTONDBLCLK, WM_RBUTTONDOWN, WM_RBUTTONUP, WM_RBUTTONDBLCLK,
    WM_MBUTTONDOWN, WM_MBUTTONUP, WM_MBUTTONDBLCLK, WM_MOUSEWHEEL,
    WM_XBUTTONDOWN, WM_XBUTTONUP, WM_XBUTTONDBLCLK, WM_MOUSEHWHEEL,
    WM_KEYDOWN, WM_KEYUP, WM_CHAR, WM_SYSKEYDOWN, WM_SYSKEYUP]

lemma process_hwheel_eq (env : WinEnv) (im : InputManager)
    (wparam lparam : Nat) :
    InputManager.process env im WM_MOUSEHWHEEL wparam lparam =
      (if wparam &&& MK_CONTROL ≠ 0 then
        some ((im.alter_modifiers (get_mouse_modifiers wparam)).push
          (Event.zoom (if 0 < wheelRaw wparam then 3/2 else 1/2)),
          InputResult.zoom)
      else
        some ((im.alter_modifiers (get_mouse_modifiers wparam)).push
          (Event.mouseWheel .point (wheelRaw wparam) 0
            (get_mouse_modifiers wparam)), InputResult.scroll)) := by
  simp [InputManager.process, WM_MOUSEMOVE, WM_LBUTTONDOWN, WM_LBUTTONUP,
    WM_LBUTTONDBLCLK, WM_RBUTTONDOWN, WM_RBUTTONUP, WM_RBUTTONDBLCLK,
    WM_MBUTTONDOWN, WM_MBUTTONUP, WM_MBUTTONDBLCLK, WM_MOUSEWHEEL,
    WM_XBUTTONDOWN, WM_XBUTTONUP, WM_XBUTTONDBLCLK, WM_MOUSEHWHEEL,
    WM_KEYDOWN, WM_KEYUP, WM_CHAR, WM_SYSKEYDOWN, WM_SYSKEYUP]

lemma push_modifiers (im : InputManager) (e : Event) :
    (im.push e).modifiers = im.modifiers := rfl

lemma find?_key_none_of_all {β : Type} (l : List (Nat × β)) (k : Nat)
    (hall : ∀ p ∈ l, p.1 ≠ k) : l.find? (fun p => p.1 = k) = none := by
  rw [List.find?_eq_none]
  intro x hx
  simpa using hall x hx

lemma lookupTex_insertTex (tm : TextureManager) (tid : TextureId)
    (t : ManagedTexture) : lookupTex (insertTex tm tid t) tid = some t := by
  have h1 : (tm.textures.filter fun p => p.1 ≠ tid).find?
      (fun p => p.1 = tid) = none :=
    find?_key_none_of_all _ _
      (fun p hp => by simpa using List.of_mem_filter hp)
  unfold lookupTex insertTex
  rw [List.find?_append, h1]
  simp

lemma lookupGpu_setGpu (dev : D3Dev) (h : Nat) (t : GpuTex) :
    lookupGpu (setGpu dev h t) h = some t := by
  have h1 : (dev.gpu.filter fun p => p.1 ≠ h).find?
      (fun p => p.1 = h) = none :=
    find?_key_none_of_all _ _
      (fun p hp => by simpa using List.of_mem_filter hp)
  unfold lookupGpu setGpu
  rw [List.find?_append, h1]
  simp

lemma lookupGpu_drop_then_set (dev : D3Dev) (h newh : Nat) (t : GpuTex)
    (hne : newh ≠ h) :
    lookupGpu (setGpu (dropGpu dev h) newh t) h = none := by
  have h1 : (((dropGpu dev h).gpu).filter fun p => p.1 ≠ newh).find?
      (fun p => p.1 = h) = none :=
    find?_key_none_of_all _ _
      (fun p hp => by
        have hmem := List.mem_of_mem_filter hp
        simpa using List.of_mem_filter hmem)
  unfold lookupGpu setGpu
  rw [List.find?_append, h1]
  simp [hne]

lemma from_mesh_none_iff (m : EguiMesh) (r : ERect) :
    MeshDescriptor.from_mesh m r = none ↔
      (m.indices = [] ∨ m.indices.length % 3 ≠ 0) := by
  unfold MeshDescriptor.from_mesh
  by_cases h : (m.indices.isEmpty || m.indices.length % 3 != 0)
  · rw [if_pos h]
    have h2 : m.indices = [] ∨ m.indices.length % 3 ≠ 0 := by
      simpa [List.isEmpty_iff] using h
    simp [h2]
  · rw [if_neg h]
    have h2 : ¬(m.indices = [] ∨ m.indices.length % 3 ≠ 0) := by
      simpa [List.isEmpty_iff] using h
    simp [h2]

lemma gpu_from_mesh_none_iff (m : EguiMesh) (r : ERect) :
    GpuMesh.from_mesh m r = none ↔
      (m.indices = [] ∨ m.indices.length % 3 ≠ 0) := by
  rw [← from_mesh_none_iff m r]
  unfold GpuMesh.from_mesh
  cases h : MeshDescriptor.from_mesh m r with
  | none => simp
  | some x =>
      rcases x with ⟨d, vs, idxs⟩
      simp

lemma goodMesh_decide (p : EguiMesh × ERect) :
    (!(p.1.indices.isEmpty || p.1.indices.length % 3 != 0)) = true ↔
      ¬(p.1.indices = [] ∨ p.1.indices.length % 3 ≠ 0) := by
  simp [List.isEmpty_iff]

lemma gpuMesh_filterMap_filter (prims : List (EguiMesh × ERect)) :
    prims.filterMap (fun p => GpuMesh.from_mesh p.1 p.2)
      = (prims.filter (fun p =>
          !(p.1.indices.isEmpty || p.1.indices.length % 3 != 0))).filterMap
          (fun p => GpuMesh.from_mesh p.1 p.2) := by
  induction prims with
  | nil => rfl
  | cons p ps ih =>
      rw [List.filterMap_cons, List.filter_cons]
      by_cases h : (p.1.indices = [] ∨ p.1.indices.length % 3 ≠ 0)
      · have hnone : GpuMesh.from_mesh p.1 p.2 = none :=
          (gpu_from_mesh_none_iff p.1 p.2).mpr h
        have hbad : (!(p.1.indices.isEmpty ||
            p.1.indices.length % 3 != 0)) = false :=
          Bool.eq_false_iff.mpr (fun hb => ((goodMesh_decide p).mp hb) h)
        rw [hnone, hbad]
        simpa using ih
      · have hgood : (!(p.1.indices.isEmpty ||
            p.1.indices.length % 3 != 0)) = true := (goodMesh_decide p).mpr h
        have hsome : GpuMesh.from_mesh p.1 p.2 ≠ none := fun hn =>
          h ((gpu_from_mesh_none_iff p.1 p.2).mp hn)
        obtain ⟨g, hg⟩ := Option.ne_none_iff_exists.mp hsome
        rw [← hg, hgood]
        simp [List.filterMap_cons, ← hg, ih]

lemma gpuMesh_filterMap_length (prims : List (EguiMesh × ERect)) :
    (prims.filterMap (fun p => GpuMesh.from_mesh p.1 p.2)).length
      = (prims.filter (fun p =>
          !(p.1.indices.isEmpty || p.1.indices.length % 3 != 0))).length := by
  induction prims with
  | nil => rfl
  | cons p ps ih =>
      rw [List.filterMap_cons, List.filter_cons]
      by_cases h : (p.1.indices = [] ∨ p.1.indices.length % 3 ≠ 0)
      · have hnone : GpuMesh.from_mesh p.1 p.2 = none :=
          (gpu_from_mesh_none_iff p.1 p.2).mpr h
        have hbad : (!(p.1.indices.isEmpty ||
            p.1.indices.length % 3 != 0)) = false :=
          Bool.eq_false_iff.mpr (fun hb => ((goodMesh_decide p).mp hb) h)
        rw [hnone, hbad]
        simpa using ih
      · have hgood : (!(p.1.indices.isEmpty ||
            p.1.indices.length % 3 != 0)) = true := (goodMesh_decide p).mpr h
        have hsome : GpuMesh.from_mesh p.1 p.2 ≠ none := fun hn =>
          h ((gpu_from_mesh_none_iff p.1 p.2).mp hn)
        obtain ⟨g, hg⟩ := Option.ne_none_iff_exists.mp hsome
        rw [← hg, hgood]
        simp [List.filterMap_cons, ← hg, ih]

/-! ### Claim theorems -/

/-- C10: for every state of the input manager, the batch returned by
collect_input has its focused flag equal to true, regardless of the actual
focus state of the host window. -/
theorem c10_focused_always_true (im : InputManager)
    (screen : (Int × Int) × (Int × Int)) (time : ℚ) :
    ((im.collect_input screen time).1).focused = true := rfl

/-- C9: every window message outside the recognized set returns the
Unknown tag and leaves the input manager unchanged (no event appended,
modifiers snapshot untouched). -/
theorem c9_unknown_message_no_effect (env : WinEnv) (im : InputManager)
    (umsg wparam lparam : Nat) (h : umsg ∉ recognizedMsgs) :
    InputManager.process env im umsg wparam lparam =
      some (im, InputResult.unknown) := by
  simp only [recognizedMsgs, List.mem_cons, List.not_mem_nil, or_false,
    not_or] at h
  obtain ⟨h1, h2, h3, h4, h5, h6, h7, h8, h9, h10, h11, h12, h13, h14, h15,
    h16, h17, h18, h19, h20⟩ := h
  simp [InputManager.process, h1, h2, h3, h4, h5, h6, h7, h8, h9, h10, h11,
    h12, h13, h14, h15, h16, h17, h18, h19, h20]

/-- C9 witness: message 0x8000 is unrecognized and leaves the manager
untouched. -/
theorem c9_witness :
    (0x8000 : Nat) ∉ recognizedMsgs ∧
    InputManager.process ⟨false, false, none⟩ InputManager.new 0x8000 1 2 =
      some (InputManager.new, InputResult.unknown) :=
  ⟨by decide,
   c9_unknown_message_no_effect ⟨false, false, none⟩ InputManager.new
     0x8000 1 2 (by decide)⟩

/-- C7: on a mouse-wheel message (either axis) with the control bit set in
wParam, process appends exactly one zoom event — factor 3/2 for positive
wheel delta, 1/2 for non-positive — and returns the Zoom tag (so no scroll
event is appended); without the control bit it appends exactly one scroll
event on the message's axis and returns the Scroll tag (no zoom event). -/
theorem c7_ctrl_wheel_zoom (env : WinEnv) (im : InputManager)
    (umsg wparam lparam : Nat)
    (hmsg : umsg = WM_MOUSEWHEEL ∨ umsg = WM_MOUSEHWHEEL) :
    (wparam &&& MK_CONTROL ≠ 0 → 0 < wheelRaw wparam →
      InputManager.process env im umsg wparam lparam =
        some ((im.alter_modifiers (get_mouse_modifiers wparam)).push
          (Event.zoom (3/2)), InputResult.zoom))
    ∧ (wparam &&& MK_CONTROL ≠ 0 → wheelRaw wparam ≤ 0 →
      InputManager.process env im umsg wparam lparam =
        some ((im.alter_modifiers (get_mouse_modifiers wparam)).push
          (Event.zoom (1/2)), InputResult.zoom))
    ∧ (wparam &&& MK_CONTROL = 0 →
      InputManager.process env im umsg wparam lparam =
        some ((im.alter_modifiers (get_mouse_modifiers wparam)).push
          (Event.mouseWheel .point
            (if umsg = WM_MOUSEHWHEEL then wheelRaw wparam else 0)
            (if umsg = WM_MOUSEWHEEL then wheelRaw wparam else 0)
            (get_mouse_modifiers wparam)), InputResult.scroll)) := by
  rcases hmsg with h | h <;> subst h <;>
    refine ⟨fun hc hd => ?_, fun hc hd => ?_, fun hc => ?_⟩
  · rw [process_wheel_eq, if_pos hc, if_pos hd]
  · rw [process_wheel_eq, if_pos hc, if_neg (not_lt.mpr hd)]
  · rw [process_wheel_eq, if_neg (by simp [hc])]
    simp [WM_MOUSEWHEEL, WM_MOUSEHWHEEL]
  · rw [process_hwheel_eq, if_pos hc, if_pos hd]
  · rw [process_hwheel_eq, if_pos hc, if_neg (not_lt.mpr hd)]
  · rw [process_hwheel_eq, if_neg (by simp [hc])]
    simp [WM_MOUSEWHEEL, WM_MOUSEHWHEEL]

/-- C7 witness: a vertical wheel message with the control bit and a
positive delta of one notch produces the 3/2 zoom event. -/
theorem c7_witness :
    ((8 + 120 * 65536 : Nat) &&& MK_CONTROL ≠ 0) ∧
    (0 < wheelRaw (8 + 120 * 65536)) ∧
    InputManager.process ⟨false, false, none⟩ InputManager.new
      WM_MOUSEWHEEL (8 + 120 * 65536) 0 =
      some ((InputManager.new.alter_modifiers
        (get_mouse_modifiers (8 + 120 * 65536))).push
        (Event.zoom (3/2)), InputResult.zoom) :=
  ⟨by decide, by decide,
   (c7_ctrl_wheel_zoom ⟨false, false, none⟩ InputManager.new WM_MOUSEWHEEL
     (8 + 120 * 65536) 0 (Or.inl rfl)).1 (by decide) (by decide)⟩

/-- C6 counterexample: on a freshly constructed input manager (modifiers
snapshot still None), a mouse-move message with the ctrl+shift bits set
(wParam = 12) does NOT update the snapshot, and the subsequently
collected batch carries default modifiers (ctrl = false), although the
message carried ctrl = true. -/
theorem c6_counterexample :
    InputManager.process ⟨false, false, none⟩ InputManager.new
      WM_MOUSEMOVE 12 0 =
      some ({ events := [Event.pointerMoved (0, 0)], modifiers := none },
        InputResult.mouseMove)
    ∧ (get_mouse_modifiers 12).ctrl = true
    ∧ ((InputManager.collect_input
        { events := [Event.pointerMoved (0, 0)], modifiers := none }
        ((0, 0), (0, 0)) 0).1).modifiers.ctrl = false :=
  ⟨by decide, by decide, rfl⟩

/-- C6 (amended): once the modifiers snapshot has been initialized (which
only a key message does), every mouse message updates the snapshot to the
message's modifier bits, and collect_input stamps the next batch with that
snapshot; on a fresh manager whose snapshot is still None, mouse messages
leave the snapshot unchanged. -/
theorem c6_mouse_modifiers_after_init (env : WinEnv) (im : InputManager)
    (m : Modifiers) (umsg wparam lparam : Nat) (im2 : InputManager)
    (r : InputResult) (hm : im.modifiers = some m) (hmsg : umsg ∈ mouseMsgs)
    (hp : InputManager.process env im umsg wparam lparam = some (im2, r)) :
    im2.modifiers = some (get_mouse_modifiers wparam)
    ∧ ∀ screen time,
        ((im2.collect_input screen time).1).modifiers =
          get_mouse_modifiers wparam := by
  have key : im2.modifiers = some (get_mouse_modifiers wparam) := by
    simp only [mouseMsgs, List.mem_cons, List.not_mem_nil, or_false] at hmsg
    rcases hmsg with h|h|h|h|h|h|h|h|h|h|h|h|h|h|h <;> subst h <;>
      norm_num [InputManager.process, WM_MOUSEMOVE, WM_LBUTTONDOWN,
        WM_LBUTTONUP, WM_LBUTTONDBLCLK, WM_RBUTTONDOWN, WM_RBUTTONUP,
        WM_RBUTTONDBLCLK, WM_MBUTTONDOWN, WM_MBUTTONUP, WM_MBUTTONDBLCLK,
        WM_MOUSEWHEEL, WM_XBUTTONDOWN, WM_XBUTTONUP, WM_XBUTTONDBLCLK,
        WM_MOUSEHWHEEL, WM_KEYDOWN, WM_KEYUP, WM_CHAR, WM_SYSKEYDOWN,
        WM_SYSKEYUP] at hp <;>
      (try split at hp) <;>
      (first
        | exact Option.noConfusion hp
        | ((try simp only [Option.some.injEq, Prod.mk.injEq] at hp)
           obtain ⟨h1, h2⟩ := hp
           subst h1
           simp [push_modifiers, alter_modifiers_of_some im m _ hm]))
  refine ⟨key, fun screen time => ?_⟩
  simp [InputManager.collect_input, key]

/-- C6 witness for the amended claim: after a keydown initializes the
snapshot, a ctrl+shift mouse move restamps it and the collected batch
carries it. -/
theorem c6_witness :
    ({ events := [], modifiers := some Modifiers.default } :
        InputManager).modifiers = some Modifiers.default
    ∧ InputManager.process ⟨false, false, none⟩
        { events := [], modifiers := some Modifiers.default }
        WM_MOUSEMOVE 12 0 =
        some ({ events := [Event.pointerMoved (0, 0)],
                modifiers := some (get_mouse_modifiers 12) },
          InputResult.mouseMove)
    ∧ ({ events := [Event.pointerMoved (0, 0)],
         modifiers := some (get_mouse_modifiers 12) } :
         InputManager).modifiers = some (get_mouse_modifiers 12) :=
  ⟨rfl, by decide,
   (c6_mouse_modifiers_after_init ⟨false, false, none⟩
     { events := [], modifiers := some Modifiers.default }
     Modifiers.default WM_MOUSEMOVE 12 0
     { events := [Event.pointerMoved (0, 0)],
       modifiers := some (get_mouse_modifiers 12) }
     InputResult.mouseMove rfl (by decide) (by decide)).1⟩

/-- C4: for a resident texture id with an allocated handle, a whole-image
delta with unchanged dimensions updates in place — the entry keeps the
same GPU handle, the new pixels are uploaded via a staging texture with
the destination marked dirty, and no allocation happens — while a
whole-image delta with different dimensions destroys the entry (the old
handle is released) and recreates it under the same id with the new size
and pixels and a freshly allocated handle. -/
theorem c4_whole_update_inplace_or_recreate (sys : TexSys)
    (tid : TextureId) (e : ManagedTexture) (hnd : Nat) (img : ImageData)
    (he : lookupTex sys.tm tid = some e) (hh : e.handle = some hnd)
    (hg : ∃ g, lookupGpu sys.dev hnd = some g)
    (hlt : hnd < sys.dev.nextHandle) :
    (img.size = e.size →
      ∃ sys2, sys.update_texture_whole tid img = .ok sys2
        ∧ lookupTex sys2.tm tid =
            some { handle := some hnd, pixels := img.pixels, size := e.size }
        ∧ (∃ g2, lookupGpu sys2.dev hnd = some g2
            ∧ g2.content = img.pixels ∧ g2.dirty = true)
        ∧ sys2.events = sys.events ++
            [TexEvent.createdStaging img.size,
             TexEvent.addDirtyRect hnd img.size, TexEvent.updateTexture hnd]
        ∧ sys2.dev.nextHandle = sys.dev.nextHandle)
    ∧ (img.size ≠ e.size →
      ∃ sys2, sys.update_texture_whole tid img = .ok sys2
        ∧ lookupTex sys2.tm tid =
            some { handle := some sys.dev.nextHandle, pixels := img.pixels,
                   size := img.size }
        ∧ TexEvent.releasedHandle hnd ∈ sys2.events
        ∧ lookupGpu sys2.dev hnd = none) := by
  obtain ⟨g, hgq⟩ := hg
  constructor
  · intro hsz
    simp only [TexSys.update_texture_whole, he, hsz, ne_eq,
      not_true_eq_false, if_false, hh, hgq, Except.ok.injEq]
    refine ⟨_, rfl, ?_, ?_, ?_, ?_⟩
    · simp [lookupTex_insertTex, hh]
    · exact ⟨_, lookupGpu_setGpu _ _ _, rfl, rfl⟩
    · simp
    · rfl
  · intro hsz
    simp only [TexSys.update_texture_whole, he, hsz, ne_eq,
      not_false_eq_true, if_true, TexSys.free, new_texture_from_buffer,
      hh, Except.ok.injEq]
    refine ⟨_, rfl, ?_, ?_, ?_⟩
    · simp only [lookupTex_insertTex, dropGpu]
    · simp
    · exact lookupGpu_drop_then_set _ _ _ _ (Nat.ne_of_gt hlt)

/-- C4 witness: a same-size whole update of the resident texture id 1
keeps handle 0, uploads the new pixels and leaves the allocator
untouched. -/
theorem c4_witness :
    ∃ sys2, w1sys.update_texture_whole 1 imgBlack = .ok sys2
      ∧ lookupTex sys2.tm 1 =
          some { handle := some 0, pixels := imgBlack.pixels, size := (1, 1) }
      ∧ sys2.dev.nextHandle = w1sys.dev.nextHandle := by
  obtain ⟨sys2, h1, h2, _, _, h5⟩ :=
    (c4_whole_update_inplace_or_recreate w1sys 1
      { handle := some 0, pixels := imgWhite.pixels, size := (1, 1) } 0
      imgBlack (by decide) rfl
      ⟨{ content := imgWhite.pixels, size := (1, 1), dirty := false },
        by decide⟩ (by decide)).1 (by decide)
  exact ⟨sys2, h1, h2, h5⟩

/-- C8 counterexample: in the state between release_gpu_resources and
recreate_gpu_resources, texture id 5 is still resident in the cache, yet
get fails fatally instead of returning the entry's handle — so "for every
resident id it returns that entry's handle" does not hold as stated. -/
theorem c8_counterexample :
    (lookupTex c8sys.tm 5).isSome = true
    ∧ c8sys.tm.get_by_id 5 = .error "unable to retrieve texture handle" :=
  ⟨by decide, rfl⟩

/-- C8 (amended): get_by_id fails fatally for every id not resident in
the cache; for every resident id whose entry holds an allocated native
handle it returns that handle (a resident entry whose handle was dropped
by release_gpu_resources also fails fatally). -/
theorem c8_get_by_id (tm : TextureManager) (tid : TextureId) :
    (lookupTex tm tid = none →
      tm.get_by_id tid = .error "unable to retrieve texture")
    ∧ (∀ e hnd, lookupTex tm tid = some e → e.handle = some hnd →
      tm.get_by_id tid = .ok hnd) := by
  constructor
  · intro h
    simp [TextureManager.get_by_id, h]
  · intro e hnd he hh
    simp [TextureManager.get_by_id, he, hh]

/-- C8 witness: an absent id fails fatally; the resident id 1 with handle
0 is returned. -/
theorem c8_witness :
    TextureManager.new.get_by_id 0 = .error "unable to retrieve texture"
    ∧ w1sys.tm.get_by_id 1 = .ok 0 :=
  ⟨(c8_get_by_id TextureManager.new 0).1 rfl,
   (c8_get_by_id w1sys.tm 1).2
     { handle := some 0, pixels := imgWhite.pixels, size := (1, 1) } 0
     (by decide) rfl⟩

/-- C2 (code bug): the delta sequence "create 1×1 white, then
partial-rectangle update to black at (0,0)" succeeds and the live GPU
texture holds the black pixel, but update_texture_area never folds the
partial update into the retained CPU pixel buffer; so after
deallocate_textures followed by reallocate_textures, get returns a
freshly allocated valid handle whose pixel content is the stale white
pixel, not the content last set by the delta sequence. -/
theorem c2_partial_update_lost_on_recreate :
    (TexSys.init 0).process_set_deltas c2deltas = .ok c2after
    ∧ (lookupGpu c2after.dev 0).map GpuTex.content =
        some [⟨0, 0, 0, 255⟩]
    ∧ (lookupTex c2after.tm 7).map ManagedTexture.pixels =
        some [⟨255, 255, 255, 255⟩]
    ∧ c2recreated.tm.get_by_id 7 = .ok 1
    ∧ (lookupGpu c2recreated.dev 1).map GpuTex.content =
        some [⟨255, 255, 255, 255⟩]
    ∧ ([(⟨255, 255, 255, 255⟩ : TextureColor)] : List TextureColor) ≠
        [⟨0, 0, 0, 255⟩] :=
  ⟨rfl, by decide, by decide, rfl, by decide, by decide⟩

/-- C3: a tessellated mesh converts to none exactly when its index list is
empty or not a multiple of 3; the draw plan (the filterMap that present
builds its per-mesh command lists and buffer uploads from) equals the plan
over only the triangle-aligned meshes — so an invalid mesh contributes no
draw call and no buffer write — and every valid mesh is converted and
contributes exactly one plan entry. -/
theorem c3_invalid_meshes_dropped (m : EguiMesh) (r : ERect)
    (prims : List (EguiMesh × ERect)) :
    (MeshDescriptor.from_mesh m r = none ↔
      (m.indices = [] ∨ m.indices.length % 3 ≠ 0))
    ∧ (GpuMesh.from_mesh m r = none ↔
      (m.indices = [] ∨ m.indices.length % 3 ≠ 0))
    ∧ (prims.filterMap (fun p => GpuMesh.from_mesh p.1 p.2)
        = (prims.filter (fun p =>
            !(p.1.indices.isEmpty || p.1.indices.length % 3 != 0))).filterMap
            (fun p => GpuMesh.from_mesh p.1 p.2))
    ∧ ((prims.filterMap (fun p => GpuMesh.from_mesh p.1 p.2)).length
        = (prims.filter (fun p =>
            !(p.1.indices.isEmpty || p.1.indices.length % 3 != 0))).length) :=
  ⟨from_mesh_none_iff m r, gpu_from_mesh_none_iff m r,
   gpuMesh_filterMap_filter prims, gpuMesh_filterMap_length prims⟩

/-- C5: when the toolkit returns an empty shapes list, present reduces to
exactly: apply the pending texture set deltas, apply the pending free
deltas, and return with the state guard's captured block re-applied — the
command trace is the single guard Apply (no draw call, no buffer
creation or upload), and the returned device state is the initial one. -/
theorem c5_empty_shapes_early_return (s0 : DeviceState) (sys : TexSys)
    (out : FrameOutput) (screen : Nat × Nat) (backbuffer : Nat)
    (h : out.shapes = []) :
    present s0 sys out screen backbuffer =
      (stepSets sys out).map (fun sys2 =>
        { dev := s0, texsys := stepFrees sys2 out,
          cmds := [DevCmd.applyStateBlock s0] }) := by
  unfold present
  cases hs : stepSets sys out with
  | error e => rfl
  | ok sys2 =>
      simp [h, StateBackup.dropCmds, StateBackup.new, execList, execCmd,
        Except.map]

/-- C5 witness: a frame with empty shapes and pending set and free deltas
for texture 3. -/
theorem c5_witness :
    w5out.shapes = []
    ∧ present hostState w1sys w5out (640, 480) 99 =
        (stepSets w1sys w5out).map (fun sys2 =>
          { dev := hostState, texsys := stepFrees sys2 w5out,
            cmds := [DevCmd.applyStateBlock hostState] }) :=
  ⟨rfl, c5_empty_shapes_early_return hostState w1sys w5out (640, 480) 99 rfl⟩

/-- C1: whenever a present call completes, the device state it returns is
exactly the pre-existing state s0, on every exit path (the guard's
captured D3DSBT_ALL block is re-applied when the guard drops); and the
DxState guard variant captures the state block and the three transforms
on construction, and on destruction issues the three transform restores
first and then the block Apply, which restores the captured state from
any intermediate state. -/
theorem c1_present_restores_state (s0 : DeviceState) (sys : TexSys)
    (out : FrameOutput) (screen : Nat × Nat) (backbuffer : Nat)
    (r : PresentResult) (s : DeviceState)
    (hp : present s0 sys out screen backbuffer = .ok r) :
    r.dev = s0
    ∧ execList (DxState.capture s0).dropCmds s = s0
    ∧ (DxState.capture s0).dropCmds =
        [DevCmd.setTransform .world s0.world,
         DevCmd.setTransform .view s0.view,
         DevCmd.setTransform .proj s0.proj,
         DevCmd.applyStateBlock s0] := by
  refine ⟨?_, rfl, rfl⟩
  unfold present at hp
  cases hs : stepSets sys out with
  | error e =>
      rw [hs] at hp
      exact Except.noConfusion hp
  | ok sys2 =>
      rw [hs] at hp
      dsimp only at hp
      by_cases hsh : out.shapes.isEmpty
      · rw [if_pos hsh] at hp
        injection hp with hp
        subst hp
        rfl
      · rw [if_neg hsh] at hp
        cases hd : drawAll sys2.tm
            (out.prims.filterMap fun p => GpuMesh.from_mesh p.1 p.2) with
        | error e =>
            rw [hd] at hp
            exact Except.noConfusion hp
        | ok dcmds =>
            rw [hd] at hp
            injection hp with hp
            subst hp
            rfl

/-- C1 witness: a full present over an arbitrary host state, with one
drawable mesh bound to the resident texture, completes and hands back the
host state unchanged. -/
theorem c1_witness :
    present hostState w1sys w1out (640, 480) 99 = .ok c1res
    ∧ c1res.dev = hostState :=
  ⟨rfl,
   (c1_present_restores_state hostState w1sys w1out (640, 480) 99 c1res
     hostState rfl).1⟩

end EguiD3D9
